import Mathlib

/-!
Verification of the sandbox backend selection and execution engine of
`defuse` (`src/defuse/sandbox.py`), shallowly embedded in Lean 4.

The embedding models the pure decision content of the module:
backend detection (`SandboxCapabilities._detect_backends`), ranking
(`_get_recommended_backend`), isolation-level mapping
(`get_max_isolation_level`), backend resolution in
`SandboxedDownloader.__init__`, the per-backend command-line
construction of the four invokers, the classification of a subprocess
outcome into the invoker's boolean result, and the orchestration /
fallback loop of `sandboxed_download`.

Host-dependent facts (which binaries are on PATH, whether `docker info`
succeeds, what a subprocess invocation does, whether the output file
exists at a given moment) enter as explicit parameters, so that every
definition is a total computable function of them, exactly mirroring
the source's control flow.
-/

namespace Defuse

/-- `IsolationLevel` enum from `sandbox.py`. -/
inductive IsolationLevel
  | NONE
  | BASIC
  | STRICT
  | PARANOID
deriving DecidableEq, Repr

/-- `SandboxBackend` enum from `sandbox.py`, in Python declaration order
(`AUTO, FIREJAIL, BUBBLEWRAP, PODMAN, DOCKER`). -/
inductive SandboxBackend
  | AUTO
  | FIREJAIL
  | BUBBLEWRAP
  | PODMAN
  | DOCKER
deriving DecidableEq, Repr, Fintype

/-- The `.value` string of each enum member. -/
def SandboxBackend.value : SandboxBackend → String
  | .AUTO => "auto"
  | .FIREJAIL => "firejail"
  | .BUBBLEWRAP => "bubblewrap"
  | .PODMAN => "podman"
  | .DOCKER => "docker"

/-- Python declaration order of the enum, as iterated by
`for backend in SandboxBackend`. -/
def backendEnumOrder : List SandboxBackend :=
  [.AUTO, .FIREJAIL, .BUBBLEWRAP, .PODMAN, .DOCKER]

/-- The availability flags of the four concrete backends, i.e. the
content of the `available_backends` dict apart from the constant
`AUTO ↦ True` entry (recovered by `availGet`). -/
structure Availability where
  firejail : Bool
  bubblewrap : Bool
  podman : Bool
  docker : Bool
deriving DecidableEq, Repr, Fintype

/-- Lookup in the `available_backends` dict: the dict built by
`_detect_backends` always maps `AUTO` to `True` and has an entry for
every concrete backend, so `d[b]` and `d.get(b, False)` agree and are
both modelled by this total function. -/
def availGet (a : Availability) : SandboxBackend → Bool
  | .AUTO => true
  | .FIREJAIL => a.firejail
  | .BUBBLEWRAP => a.bubblewrap
  | .PODMAN => a.podman
  | .DOCKER => a.docker

/-- The host facts probed by `_detect_backends`: the lowered
`platform.system()` string, whether `firejail` / `bwrap` are on PATH,
and whether the `docker info` / `podman info` checks succeed
(`_check_docker_available` / `_check_podman_available`: binary on PATH
and the `info` subcommand exits 0 within the timeout). -/
structure HostEnv where
  platform : String
  firejailOnPath : Bool
  bwrapOnPath : Bool
  dockerCheck : Bool
  podmanCheck : Bool

/-- `SandboxCapabilities._detect_backends`: firejail/bubblewrap are
consulted only on `"linux"` and unconditionally `False` elsewhere;
docker/podman come from their runtime checks. -/
def detectBackends (e : HostEnv) : Availability :=
  { firejail := e.platform == "linux" && e.firejailOnPath
    bubblewrap := e.platform == "linux" && e.bwrapOnPath
    podman := e.podmanCheck
    docker := e.dockerCheck }

/-- `SandboxCapabilities._get_recommended_backend`: firejail, then
bubblewrap, then podman but only on `"linux"`, then docker; `none`
models the `RuntimeError("No suitable sandboxing backend available…")`. -/
def getRecommendedBackend (platform : String) (a : Availability) :
    Option SandboxBackend :=
  if a.firejail then some .FIREJAIL
  else if a.bubblewrap then some .BUBBLEWRAP
  else if platform == "linux" && a.podman then some .PODMAN
  else if a.docker then some .DOCKER
  else none

/-- `SandboxCapabilities.__init__`: probe the backends, then rank; a
`none` result models the constructor raising. On success the
capabilities hold the availability map and the recommended backend. -/
def mkSandboxCapabilities (e : HostEnv) :
    Option (Availability × SandboxBackend) :=
  let a := detectBackends e
  match getRecommendedBackend e.platform a with
  | some r => some (a, r)
  | none => none

/-- `SandboxCapabilities.get_max_isolation_level`. -/
def getMaxIsolationLevel (a : Availability) : IsolationLevel :=
  if a.firejail || a.bubblewrap then .PARANOID
  else if a.docker || a.podman then .STRICT
  else .BASIC

/-- Strength order claimed by the spec (`§4.2`): firejail, bubblewrap,
then the platform-preferred container runtime — Podman before Docker on
Linux, Docker as the generic fallback elsewhere. Stated from the spec's
words, for comparison with `getRecommendedBackend`. -/
def claimStrengthOrder (platform : String) : List SandboxBackend :=
  if platform == "linux" then [.FIREJAIL, .BUBBLEWRAP, .PODMAN, .DOCKER]
  else [.FIREJAIL, .BUBBLEWRAP, .DOCKER]

/-- Helper: exact characterisation of when ranking fails. -/
theorem getRecommendedBackend_eq_none_iff (platform : String)
    (a : Availability) :
    getRecommendedBackend platform a = none ↔
      (a.firejail = false ∧ a.bubblewrap = false ∧ a.docker = false ∧
        (platform = "linux" → a.podman = false)) := by
  rcases a with ⟨f, b, p, d⟩
  by_cases h : platform = "linux" <;>
    cases f <;> cases b <;> cases p <;> cases d <;>
      simp_all [getRecommendedBackend]

/-- C1 (counterexample): on `"darwin"` with Podman operational but
Docker not (and no firejail/bwrap binaries mattering), detection yields
an availability map whose only available concrete backend is Podman —
yet construction raises (`none`), refuting "construction succeeds
whenever at least one concrete backend is available". -/
theorem podman_only_darwin_raises :
    detectBackends ⟨"darwin", true, true, false, true⟩ =
      ⟨false, false, true, false⟩ ∧
    (⟨false, false, true, false⟩ : Availability).podman = true ∧
    mkSandboxCapabilities ⟨"darwin", true, true, false, true⟩ = none := by
  refine ⟨rfl, rfl, rfl⟩

/-- C1 (amended): `SandboxCapabilities` construction raises iff
firejail, bubblewrap and docker are all unavailable and podman is
either unavailable or the platform is not `"linux"` — i.e. on Linux
the failure happens exactly when all four concrete backends are
unavailable, but on other platforms an available Podman does not
prevent the failure. -/
theorem mkSandboxCapabilities_eq_none_iff (e : HostEnv) :
    mkSandboxCapabilities e = none ↔
      ((detectBackends e).firejail = false ∧
        (detectBackends e).bubblewrap = false ∧
        (detectBackends e).docker = false ∧
        (e.platform = "linux" → (detectBackends e).podman = false)) := by
  rw [← getRecommendedBackend_eq_none_iff]
  unfold mkSandboxCapabilities
  cases h : getRecommendedBackend e.platform (detectBackends e) <;> simp [h]

/-- C2 (counterexample): on `"windows"` with only Podman available, a
concrete backend is available yet the ranker recommends nothing at all
(it raises), refuting "for every availability assignment with at least
one concrete backend available, the recommended backend is the first
available one in the strength order". -/
theorem podman_only_windows_no_recommendation :
    (⟨false, false, true, false⟩ : Availability).podman = true ∧
    getRecommendedBackend "windows" ⟨false, false, true, false⟩ = none := by
  refine ⟨rfl, rfl⟩

/-- C2 (amended): the recommendation is exactly the first available
backend of the platform's strength order — `[firejail, bubblewrap,
podman, docker]` on Linux and `[firejail, bubblewrap, docker]`
elsewhere (so on non-Linux platforms Podman is never recommended, and
a Podman-only assignment yields the fatal error instead of a
recommendation). -/
theorem getRecommendedBackend_eq_find (platform : String)
    (a : Availability) :
    getRecommendedBackend platform a =
      (claimStrengthOrder platform).find? (availGet a) := by
  rcases a with ⟨f, b, p, d⟩
  by_cases h : platform = "linux" <;>
    cases f <;> cases b <;> cases p <;> cases d <;>
      simp_all [getRecommendedBackend, claimStrengthOrder, availGet,
        List.find?]

/-- C7: `get_max_isolation_level` returns `PARANOID` iff firejail or
bubblewrap is available, `STRICT` iff neither of those is but docker or
podman is, and `BASIC` otherwise. -/
theorem getMaxIsolationLevel_spec (a : Availability) :
    (getMaxIsolationLevel a = .PARANOID ↔
      (a.firejail = true ∨ a.bubblewrap = true)) ∧
    (getMaxIsolationLevel a = .STRICT ↔
      (¬(a.firejail = true ∨ a.bubblewrap = true) ∧
        (a.docker = true ∨ a.podman = true))) ∧
    (getMaxIsolationLevel a = .BASIC ↔
      (¬(a.firejail = true ∨ a.bubblewrap = true) ∧
        ¬(a.docker = true ∨ a.podman = true))) := by
  rcases a with ⟨f, b, p, d⟩
  cases f <;> cases b <;> cases p <;> cases d <;>
    simp [getMaxIsolationLevel]

/-- The backend-resolution loop of `SandboxedDownloader.__init__`:
starting from the default `AUTO`, scan the enum in declaration order and
take the first member whose `.value` equals the configured string
(`break` on first match; an unmatched string leaves the default). -/
def findBackendByValue (s : String) : SandboxBackend :=
  (backendEnumOrder.find? (fun b => b.value == s)).getD .AUTO

/-- End of `SandboxedDownloader.__init__`: if the resolved backend is
`AUTO`, replace it with the capabilities' recommended backend. -/
def resolveBackend (s : String) (recommended : SandboxBackend) :
    SandboxBackend :=
  let b := findBackendByValue s
  if b = .AUTO then recommended else b

/-- Helper: the ranker never recommends `AUTO`. -/
theorem getRecommendedBackend_ne_auto (platform : String)
    (a : Availability) (r : SandboxBackend)
    (h : getRecommendedBackend platform a = some r) : r ≠ .AUTO := by
  rcases a with ⟨f, b, p, d⟩
  cases f <;> cases b <;> cases p <;> cases d <;>
    by_cases hp : platform == "linux" <;>
      simp_all [getRecommendedBackend] <;> simp [← h]

/-- C9: after `SandboxedDownloader.__init__` completes, the resolved
backend is never `AUTO`: whatever string the configuration holds —
`"auto"` or any string matching no backend value leaves the scan at its
`AUTO` default, which is then replaced by the recommended backend, and
the recommended backend produced by a successful capabilities
construction is always concrete. -/
theorem resolveBackend_ne_auto (s platform : String) (a : Availability)
    (r : SandboxBackend)
    (h : getRecommendedBackend platform a = some r) :
    resolveBackend s r ≠ .AUTO := by
  have hr := getRecommendedBackend_ne_auto platform a r h
  unfold resolveBackend
  by_cases hb : findBackendByValue s = .AUTO <;> simp [hb, hr]

/-- C9 (witness): with the configured string `"auto"` on a Linux host
where everything is available, the recommendation is `FIREJAIL` and the
resolved backend is not `AUTO`. -/
theorem resolveBackend_ne_auto_witness :
    resolveBackend "auto" SandboxBackend.FIREJAIL ≠ .AUTO :=
  resolveBackend_ne_auto "auto" "linux" ⟨true, true, true, true⟩
    SandboxBackend.FIREJAIL rfl

/-! ## Invoker command construction

The configuration fields interpolated into the invoker command lines.
The generated in-sandbox fetch program (`create_download_script`, and
the inline `download_cmd` python text of the container invokers) is
interpolated from the same configuration; its source text bears on no
claim here and enters the command lists as an abstract string
parameter (`script_path` resp. `download_cmd`). -/

structure SandboxConfig where
  max_file_size : Nat
  max_memory_mb : Nat
  download_timeout : Nat
  max_cpu_seconds : Nat

/-- The `cmd` list of `run_firejail_download`. -/
def firejail_cmd (cfg : SandboxConfig) (script_path : String) :
    List String :=
  ["firejail",
   "--noprofile",
   "--net=none",
   "--seccomp",
   "--noroot",
   "--private-tmp",
   "--private-dev",
   "--rlimit-fsize=" ++ toString cfg.max_file_size,
   "--rlimit-nofile=64",
   "--rlimit-nproc=10",
   "--timeout=120",
   "python3",
   script_path]

/-- The `cmd` list of `run_bubblewrap_download`; `output_parent` is
`str(output_path.parent)`. -/
def bubblewrap_cmd (script_path output_parent : String) : List String :=
  ["bwrap",
   "--new-session",
   "--die-with-parent",
   "--unshare-pid",
   "--unshare-net",
   "--tmpfs", "/tmp",
   "--proc", "/proc",
   "--bind", "/usr", "/usr",
   "--bind", "/bin", "/bin",
   "--bind", "/lib", "/lib",
   "--bind", "/lib64", "/lib64",
   "--ro-bind", script_path, "/tmp/download_script.py",
   "--bind", output_parent, "/output",
   "python3",
   "/tmp/download_script.py"]

/-- The `cmd` list of `run_docker_download`; `output_parent` is
`output_path.parent` and `download_cmd` the inline fetch script. -/
def docker_cmd (cfg : SandboxConfig) (output_parent download_cmd : String) :
    List String :=
  ["docker",
   "run",
   "--rm",
   "--network", "bridge",
   "--memory", toString cfg.max_memory_mb ++ "m",
   "--cpu-shares", "512",
   "--security-opt", "no-new-privileges:true",
   "--read-only",
   "--tmpfs", "/tmp:noexec,nosuid,size=100m",
   "--volume", output_parent ++ ":/output:rw",
   "python:3.11-slim",
   "sh", "-c",
   download_cmd]

/-- The `cmd` list of `run_podman_download`. -/
def podman_cmd (cfg : SandboxConfig) (output_parent download_cmd : String) :
    List String :=
  ["podman",
   "run",
   "--rm",
   "--network", "bridge",
   "--memory", toString cfg.max_memory_mb ++ "m",
   "--cpus", "0.5",
   "--security-opt", "no-new-privileges:true",
   "--read-only",
   "--tmpfs", "/tmp:noexec,nosuid,size=100m",
   "--volume", output_parent ++ ":/output:rw",
   "python:3.11-slim",
   "sh", "-c",
   download_cmd]

/-- C5 (code evaluation): for every configuration and every script /
output path, the firejail command contains `--net=none` and the
bubblewrap command contains `--unshare-net` — both invocations disable
networking, so the in-sandbox fetch can never reach the network. This
contradicts the spec ("Network allowed during the fetch") and the
repository's own tests, which assert these exact tokens are absent. -/
theorem firejail_bwrap_disable_network (cfg : SandboxConfig)
    (script_path output_parent : String) :
    "--net=none" ∈ firejail_cmd cfg script_path ∧
    "--unshare-net" ∈ bubblewrap_cmd script_path output_parent := by
  refine ⟨?_, ?_⟩ <;> simp [firejail_cmd, bubblewrap_cmd]

/-- C6: for every configuration and path, the docker and podman command
lists contain `--rm` and `--read-only`, the token `--network`
immediately followed by `bridge`, `--security-opt` immediately followed
by the value `no-new-privileges:true` (which contains that string), and
`--memory` immediately followed by exactly the decimal rendering of
`max_memory_mb` suffixed with `m`. -/
theorem container_cmd_security_tokens (cfg : SandboxConfig)
    (output_parent download_cmd : String) :
    ("--rm" ∈ docker_cmd cfg output_parent download_cmd ∧
     "--read-only" ∈ docker_cmd cfg output_parent download_cmd ∧
     ["--network", "bridge"] <:+: docker_cmd cfg output_parent download_cmd ∧
     ["--security-opt", "no-new-privileges:true"] <:+:
       docker_cmd cfg output_parent download_cmd ∧
     ["--memory", toString cfg.max_memory_mb ++ "m"] <:+:
       docker_cmd cfg output_parent download_cmd) ∧
    ("--rm" ∈ podman_cmd cfg output_parent download_cmd ∧
     "--read-only" ∈ podman_cmd cfg output_parent download_cmd ∧
     ["--network", "bridge"] <:+: podman_cmd cfg output_parent download_cmd ∧
     ["--security-opt", "no-new-privileges:true"] <:+:
       podman_cmd cfg output_parent download_cmd ∧
     ["--memory", toString cfg.max_memory_mb ++ "m"] <:+:
       podman_cmd cfg output_parent download_cmd) := by
  refine ⟨⟨?_, ?_, ?_, ?_, ?_⟩, ⟨?_, ?_, ?_, ?_, ?_⟩⟩
  · simp [docker_cmd]
  · simp [docker_cmd]
  · exact ⟨["docker", "run", "--rm"], _, rfl⟩
  · exact ⟨["docker", "run", "--rm", "--network", "bridge",
      "--memory", toString cfg.max_memory_mb ++ "m",
      "--cpu-shares", "512"], _, rfl⟩
  · exact ⟨["docker", "run", "--rm", "--network", "bridge"], _, rfl⟩
  · simp [podman_cmd]
  · simp [podman_cmd]
  · exact ⟨["podman", "run", "--rm"], _, rfl⟩
  · exact ⟨["podman", "run", "--rm", "--network", "bridge",
      "--memory", toString cfg.max_memory_mb ++ "m",
      "--cpus", "0.5"], _, rfl⟩
  · exact ⟨["podman", "run", "--rm", "--network", "bridge"], _, rfl⟩

/-! ## Invoker result classification

Each `run_<backend>_download` launches its command through
`subprocess.run` inside a `try` block. The outcome of that launch is
one of: the subprocess completed with a return code (and the expected
output file does or does not exist afterwards), the outer timeout fired
(`subprocess.TimeoutExpired`), or the launch layer threw some other
exception (caught by the blanket `except Exception`).

The container invokers (`run_docker_download`, `run_podman_download`)
have their whole body inside the `try`, so they are total Bool-valued
functions of that outcome. The firejail/bubblewrap invokers are NOT: each
calls `create_download_script` BEFORE its `try` block, and that call
re-raises write failures (`tempfile.mkstemp` errors also escape), so it
propagates an exception to the caller; and their `finally` clause runs
`script_path.unlink(missing_ok=True)`, which suppresses only a missing
file — any other cleanup failure (e.g. `PermissionError`) also
propagates, discarding the computed return value. `PyResult` represents
a call that either returns a value or raises; `scriptCreated` is
whether `create_download_script` returned normally and `cleanupOk`
whether the `finally` unlink did. -/

inductive ProcOutcome
  | completed (returncode : Int) (outputExists : Bool)
  | timedOut
  | raised
deriving DecidableEq, Repr

inductive PyResult (α : Type)
  | ok (a : α)
  | exn
deriving DecidableEq, Repr

/-- `run_firejail_download`: `create_download_script` runs before the
`try`, so its exception propagates; then the try/except classifies the
subprocess outcome — `True` iff the subprocess returned 0 and
`output_path.exists()`, `False` on non-zero exit, timeout, or a caught
launch-layer exception (the diagnostic `print` is a side channel); the
`finally` unlink runs last and, if it raises, its exception replaces
the computed result. -/
def run_firejail_download (scriptCreated : Bool) (o : ProcOutcome)
    (cleanupOk : Bool) : PyResult Bool :=
  if !scriptCreated then .exn
  else if !cleanupOk then .exn
  else .ok (match o with
    | .completed rc ex => rc == 0 && ex
    | .timedOut => false
    | .raised => false)

/-- `run_bubblewrap_download` (same structure as firejail:
`create_download_script` before the `try`, unlink in `finally`). -/
def run_bubblewrap_download (scriptCreated : Bool) (o : ProcOutcome)
    (cleanupOk : Bool) : PyResult Bool :=
  if !scriptCreated then .exn
  else if !cleanupOk then .exn
  else .ok (match o with
    | .completed rc ex => rc == 0 && ex
    | .timedOut => false
    | .raised => false)

/-- Result logic of `run_docker_download`: the whole body is inside the
`try` with a blanket `except Exception`, so it is a total function of
the subprocess outcome. -/
def run_docker_download (o : ProcOutcome) : Bool :=
  match o with
  | .completed rc ex => rc == 0 && ex
  | .timedOut => false
  | .raised => false

/-- Result logic of `run_podman_download` (same structure as docker). -/
def run_podman_download (o : ProcOutcome) : Bool :=
  match o with
  | .completed rc ex => rc == 0 && ex
  | .timedOut => false
  | .raised => false

/-- C8 (counterexample): when `create_download_script` raises — it is
called before the `try` block at sandbox.py:283 and :326 — the firejail
and bubblewrap invokers propagate the exception to their caller instead
of returning `false`, even though the subprocess layer would have
reported success, refuting "the invoker never raises an exception to
its caller". -/
theorem firejail_bwrap_invokers_can_raise :
    run_firejail_download false (.completed 0 true) true = .exn ∧
    run_bubblewrap_download false (.completed 0 true) true = .exn := by
  refine ⟨rfl, rfl⟩

/-- C8 (amended): the docker and podman invokers are total — true
exactly when the subprocess exited 0 and the expected output file
exists, false on every other outcome, never raising. The firejail and
bubblewrap invokers satisfy the same classification only when the
pre-`try` script creation and the `finally` cleanup both return
normally: they yield `ok true` exactly when script creation succeeded,
cleanup succeeded, the subprocess exited 0 and the output file exists;
any other subprocess outcome under successful creation and cleanup
yields `ok false`; and they raise to the caller exactly when script
creation or the final unlink raises. -/
theorem invoker_result_spec (scriptCreated cleanupOk : Bool)
    (o : ProcOutcome) :
    (run_firejail_download scriptCreated o cleanupOk = .ok true ↔
      (scriptCreated = true ∧ cleanupOk = true ∧ o = .completed 0 true)) ∧
    (run_firejail_download scriptCreated o cleanupOk = .exn ↔
      (scriptCreated = false ∨ cleanupOk = false)) ∧
    (run_bubblewrap_download scriptCreated o cleanupOk = .ok true ↔
      (scriptCreated = true ∧ cleanupOk = true ∧ o = .completed 0 true)) ∧
    (run_bubblewrap_download scriptCreated o cleanupOk = .exn ↔
      (scriptCreated = false ∨ cleanupOk = false)) ∧
    (run_docker_download o = true ↔ o = .completed 0 true) ∧
    (run_podman_download o = true ↔ o = .completed 0 true) := by
  cases scriptCreated <;> cases cleanupOk <;>
    cases o with
    | completed rc ex =>
        cases ex <;>
          simp [run_firejail_download, run_bubblewrap_download,
            run_docker_download, run_podman_download]
    | timedOut =>
        simp [run_firejail_download, run_bubblewrap_download,
          run_docker_download, run_podman_download]
    | raised =>
        simp [run_firejail_download, run_bubblewrap_download,
          run_docker_download, run_podman_download]

/-! ## The orchestrator: `sandboxed_download`

The orchestrator's control flow is a pure function of: the resolved
backend, the availability map, and — for each backend it may invoke —
that invoker's boolean result together with whether the output path
exists right after the attempt (a failed attempt may leave a partial
file). `AttemptResult` packages the latter pair; `invoker b` is the
behaviour of `run_<b>_download` for the call's fixed url, output path
and configuration (each backend is invoked at most once per call).
`file0` is whether the output path exists on disk when the attempt
phase starts, and the `Bool` component of the result is whether it
exists when `sandboxed_download` returns. -/

structure AttemptResult where
  ok : Bool
  fileExists : Bool
deriving DecidableEq, Repr

/-- The fixed fallback priority list (`fallback_order` in the source). -/
def fallback_order : List SandboxBackend :=
  [.FIREJAIL, .BUBBLEWRAP, .PODMAN, .DOCKER]

/-- The guard of the primary attempt: the `if/elif` chain tries the
resolved backend exactly when it is one of the four concrete backends
and `available_backends[backend]` holds; an `AUTO` backend matches no
branch. -/
def primaryAttemptCond (backend : SandboxBackend) (a : Availability) :
    Bool :=
  match backend with
  | .AUTO => false
  | .FIREJAIL => a.firejail
  | .BUBBLEWRAP => a.bubblewrap
  | .PODMAN => a.podman
  | .DOCKER => a.docker

/-- The fallback loop: walk the priority list, skipping the backend
already tried and any backend whose `available_backends.get(b, False)`
is false; invoke each remaining one, returning on the first success.
Returns (success?, output-file existence after the loop). -/
def runFallbacks (backend : SandboxBackend) (a : Availability)
    (invoker : SandboxBackend → AttemptResult) :
    List SandboxBackend → Bool → Bool × Bool
  | [], file => (false, file)
  | b :: rest, file =>
    if b ≠ backend ∧ availGet a b = true then
      let r := invoker b
      if r.ok then (true, r.fileExists)
      else runFallbacks backend a invoker rest r.fileExists
    else runFallbacks backend a invoker rest file

/-- Tail of `sandboxed_download` after the primary attempt failed or
was skipped: run the fallback loop; if it too fails, delete the output
path if it exists (`output_path.unlink(missing_ok=True)`) and signal
failure with `None`. -/
def afterPrimary (backend : SandboxBackend) (a : Availability)
    (invoker : SandboxBackend → AttemptResult) (output_path : String)
    (file : Bool) : Option String × Bool :=
  match runFallbacks backend a invoker fallback_order file with
  | (true, f) => (some output_path, f)
  | (false, f) => (none, if f then false else f)

/-- `SandboxedDownloader.sandboxed_download` for a caller-supplied
`output_path` (when the caller passes none, a fresh temp path is
allocated first and `file0 = true` for the empty temp file): try the
resolved backend once if it is concrete and available, return the
output path on success, otherwise fall back. -/
def sandboxed_download (backend : SandboxBackend) (a : Availability)
    (invoker : SandboxBackend → AttemptResult) (output_path : String)
    (file0 : Bool) : Option String × Bool :=
  if primaryAttemptCond backend a then
    let r := invoker backend
    if r.ok then (some output_path, r.fileExists)
    else afterPrimary backend a invoker output_path r.fileExists
  else afterPrimary backend a invoker output_path file0

/-- Helper: every concrete backend occurs in the fallback list. -/
theorem mem_fallback_order (w : SandboxBackend) (hw : w ≠ .AUTO) :
    w ∈ fallback_order := by
  cases w <;> simp_all [fallback_order]

/-- Helper: for a concrete backend, the primary-attempt guard is its
availability flag. -/
theorem primaryAttemptCond_concrete (w : SandboxBackend)
    (hw : w ≠ .AUTO) (a : Availability) :
    primaryAttemptCond w a = availGet a w := by
  cases w <;> simp_all [primaryAttemptCond, availGet]

/-- Helper: the fallback loop succeeds whenever the list contains an
available backend, different from the primary one, whose invoker
succeeds, while every other invoker fails. -/
theorem runFallbacks_success (backend w : SandboxBackend)
    (a : Availability) (invoker : SandboxBackend → AttemptResult)
    (hok : (invoker w).ok = true) (hav : availGet a w = true)
    (hne : w ≠ backend)
    (hfail : ∀ b, b ≠ w → (invoker b).ok = false) :
    ∀ (l : List SandboxBackend) (file : Bool), w ∈ l →
      (runFallbacks backend a invoker l file).1 = true := by
  intro l
  induction l with
  | nil => intro file h; simp at h
  | cons hd tl ih =>
    intro file hmem
    by_cases hh : hd = w
    · subst hh
      rw [runFallbacks, if_pos ⟨hne, hav⟩]
      simp [hok]
    · have hhd := hfail hd hh
      have htl : w ∈ tl := by
        rcases List.mem_cons.mp hmem with h1 | h2
        · exact absurd h1.symm hh
        · exact h2
      by_cases hg : hd ≠ backend ∧ availGet a hd = true
      · rw [runFallbacks, if_pos hg]
        simp [hhd]
        exact ih _ htl
      · rw [runFallbacks, if_neg hg]
        exact ih _ htl

/-- Helper: if every invoker fails, the fallback loop fails. -/
theorem runFallbacks_allfail (backend : SandboxBackend)
    (a : Availability) (invoker : SandboxBackend → AttemptResult)
    (hfail : ∀ b, (invoker b).ok = false) :
    ∀ (l : List SandboxBackend) (file : Bool),
      (runFallbacks backend a invoker l file).1 = false := by
  intro l
  induction l with
  | nil => intro file; simp [runFallbacks]
  | cons hd tl ih =>
    intro file
    by_cases hg : hd ≠ backend ∧ availGet a hd = true
    · rw [runFallbacks, if_pos hg]
      simp [hfail hd]
      exact ih _
    · rw [runFallbacks, if_neg hg]
      exact ih _

/-- Helper: if every invoker fails, `sandboxed_download` returns `none`
and the output path no longer exists. -/
theorem sandboxed_download_allfail (backend : SandboxBackend)
    (a : Availability) (invoker : SandboxBackend → AttemptResult)
    (output_path : String) (file0 : Bool)
    (hfail : ∀ b, (invoker b).ok = false) :
    sandboxed_download backend a invoker output_path file0 =
      (none, false) := by
  have hafter : ∀ file : Bool,
      afterPrimary backend a invoker output_path file = (none, false) := by
    intro file
    unfold afterPrimary
    have h1 := runFallbacks_allfail backend a invoker hfail
      fallback_order file
    rcases hrf : runFallbacks backend a invoker fallback_order file
      with ⟨ok, f⟩
    rw [hrf] at h1
    simp at h1
    subst h1
    cases f <;> simp
  unfold sandboxed_download
  by_cases hp : primaryAttemptCond backend a = true
  · rw [if_pos hp]
    simp [hfail backend, hafter]
  · rw [if_neg hp]
    exact hafter file0

/-- C3: whatever the initially resolved backend, if exactly one
backend's invoker succeeds and that backend is marked available while
every other invoker fails, `sandboxed_download` returns the expected
output path: the successful backend is either the primary attempt or is
reached by the fallback loop, which walks `[FIREJAIL, BUBBLEWRAP,
PODMAN, DOCKER]`, skipping the backend already tried and unavailable
backends, and returns on first success. -/
theorem sandboxed_download_one_success (backend w : SandboxBackend)
    (a : Availability) (invoker : SandboxBackend → AttemptResult)
    (output_path : String) (file0 : Bool) (hw : w ≠ .AUTO)
    (hok : (invoker w).ok = true) (hav : availGet a w = true)
    (hfail : ∀ b, b ≠ w → (invoker b).ok = false) :
    (sandboxed_download backend a invoker output_path file0).1 =
      some output_path := by
  by_cases hb : backend = w
  · subst hb
    unfold sandboxed_download
    rw [primaryAttemptCond_concrete backend hw a, if_pos hav]
    simp [hok]
  · have hne : w ≠ backend := fun h => hb h.symm
    have hafter : ∀ file : Bool,
        (afterPrimary backend a invoker output_path file).1 =
          some output_path := by
      intro file
      unfold afterPrimary
      have h1 := runFallbacks_success backend w a invoker hok hav hne
        hfail fallback_order file (mem_fallback_order w hw)
      rcases hrf : runFallbacks backend a invoker fallback_order file
        with ⟨ok, f⟩
      rw [hrf] at h1
      simp at h1
      subst h1
      simp
    unfold sandboxed_download
    by_cases hp : primaryAttemptCond backend a = true
    · rw [if_pos hp]
      have : (invoker backend).ok = false := hfail backend hb
      simp [this, hafter]
    · rw [if_neg hp]
      exact hafter file0

/-- C3 (witness): primary backend `DOCKER`, everything available, only
the `FIREJAIL` invoker succeeds — the download returns the output
path. -/
theorem sandboxed_download_one_success_witness :
    (sandboxed_download .DOCKER ⟨true, true, true, true⟩
      (fun b => ⟨b == .FIREJAIL, b == .FIREJAIL⟩) "/tmp/out.pdf"
      false).1 = some "/tmp/out.pdf" :=
  sandboxed_download_one_success .DOCKER .FIREJAIL
    ⟨true, true, true, true⟩
    (fun b => ⟨b == .FIREJAIL, b == .FIREJAIL⟩) "/tmp/out.pdf" false
    (by decide) (by decide) (by decide) (by decide)

/-- C4: if every invoker fails, `sandboxed_download` returns `none` and
the output path does not exist on disk afterwards — any
partially-created output file is deleted before returning. -/
theorem sandboxed_download_total_failure (backend : SandboxBackend)
    (a : Availability) (invoker : SandboxBackend → AttemptResult)
    (output_path : String) (file0 : Bool)
    (hfail : ∀ b, (invoker b).ok = false) :
    sandboxed_download backend a invoker output_path file0 =
      (none, false) :=
  sandboxed_download_allfail backend a invoker output_path file0 hfail

/-- C4 (witness): all invokers fail (each leaving a partial file) on a
fully available host — the result is `none` and the file is gone. -/
theorem sandboxed_download_total_failure_witness :
    sandboxed_download .FIREJAIL ⟨true, true, true, true⟩
      (fun _ => ⟨false, true⟩) "/tmp/out.pdf" false = (none, false) :=
  sandboxed_download_total_failure .FIREJAIL ⟨true, true, true, true⟩
    (fun _ => ⟨false, true⟩) "/tmp/out.pdf" false (by decide)

/-- C10: with a caller-supplied output path at which a file already
exists (`file0 = true`), if every attempt fails the final cleanup
(`if output_path.exists(): output_path.unlink(...)`) deletes whatever
file is at that path — including the pre-existing one — and the call
returns `none`. -/
theorem sandboxed_download_deletes_preexisting (backend : SandboxBackend)
    (a : Availability) (invoker : SandboxBackend → AttemptResult)
    (output_path : String)
    (hfail : ∀ b, (invoker b).ok = false) :
    sandboxed_download backend a invoker output_path true =
      (none, false) :=
  sandboxed_download_allfail backend a invoker output_path true hfail

/-- C10 (witness): a pre-existing file at the output path, no backend
available at all so no invoker even runs — the pre-existing file is
still deleted. -/
theorem sandboxed_download_deletes_preexisting_witness :
    sandboxed_download .FIREJAIL ⟨false, false, false, false⟩
      (fun _ => ⟨false, false⟩) "/tmp/existing.pdf" true =
      (none, false) :=
  sandboxed_download_deletes_preexisting .FIREJAIL
    ⟨false, false, false, false⟩ (fun _ => ⟨false, false⟩)
    "/tmp/existing.pdf" (by decide)

end Defuse
